import Mathlib

/-!
Verification development for the Star Wars Data Explorer repository.

The repository ships a React frontend (frontend/src) and documents a FastAPI
backend (Fetcher, Transformer, Cache Store, Resolver, Orchestrator) whose
Python sources are not part of this tree.  Frontend behaviour is embedded
directly from the JavaScript sources; the backend components are modelled from
the design document, and every such definition carries a doc comment starting
with "Modelled from the spec:".
-/

namespace StarWars

/-- JavaScript `a || b` on strings: the empty string is falsy.  A value that
JavaScript leaves `undefined` is collapsed to `""` before entering `jsOr`. -/
def jsOr (a b : String) : String := if a = "" then b else a

/-- Collapse a possibly-absent string to `""`, the JavaScript-falsy default. -/
def optStr (o : Option String) : String := o.getD ""

/-- The numeric value of a decimal digit character. -/
def charDigit (c : Char) : Option ℕ :=
  if '0' ≤ c ∧ c ≤ '9' then some (c.toNat - '0'.toNat) else none

/-- Accumulate a decimal number over a character list; any non-digit makes the
whole parse fail. -/
def parseNatChars : List Char → ℕ → Option ℕ
  | [], acc => some acc
  | c :: rest, acc =>
    match charDigit c with
    | some d => parseNatChars rest (10 * acc + d)
    | none => none

/-- Parse a non-empty all-digit string as a natural number; anything else
(including SWAPI's "unknown" sentinel) fails. -/
def parseNat (s : String) : Option ℕ :=
  if s.toList.isEmpty then none else parseNatChars s.toList 0

/-- JavaScript `toLowerCase` restricted to the ASCII range used here. -/
def strLower (s : String) : String := ⟨s.toList.map Char.toLower⟩

/-- ASCII whitespace, as far as the search box is concerned. -/
def isSpaceChar (c : Char) : Bool :=
  c == ' ' || c == '\t' || c == '\n' || c == '\r'

/-- JavaScript `trim`: strip whitespace from both ends. -/
def strTrim (s : String) : String :=
  ⟨((s.toList.dropWhile isSpaceChar).reverse.dropWhile isSpaceChar).reverse⟩

/-! ## frontend/src/helpers/api.js -/

/-- `SORT_OPTIONS` from frontend/src/helpers/api.js: the value/label pairs the
sort dropdown offers. -/
def SORT_OPTIONS : List (String × String) :=
  [("mass_kg", "Mass"), ("height_cm", "Height"), ("name", "Name"),
   ("birth_year", "Birth Year")]

/-- The two values of the order `<select>` in frontend/src/App.jsx. -/
def ORDER_OPTIONS : List String := ["asc", "desc"]

/-- The sort keys enumerated by the design document for `GET /characters`. -/
def specSortKeys : List String :=
  ["name", "height", "mass", "birth_year", "gender", "origin"]

/-- The query parameters built by `fetchCharacters`
(frontend/src/helpers/api.js): `sort_by` and `order` always, plus
`refresh=true` only when a refresh is requested. -/
def fetchCharactersParams (sortBy ord : String) (refresh : Bool) :
    List (String × String) :=
  [("sort_by", sortBy), ("order", ord)] ++
    (if refresh then [("refresh", "true")] else [])

/-- An HTTP error body as the frontend error path sees it: either JSON with
optional string fields `detail` and `message`, or raw text (JSON parsing
failed). -/
inductive ErrorPayload where
  | jsonBody (detail message : Option String)
  | textBody (t : String)

/-- The error-message extraction shared by `fetchCharacters` and
`fetchCharacterDetails` (frontend/src/helpers/api.js): start from a default,
take `body.detail || body.message || default` when the body parses as JSON,
otherwise the raw text when it is non-empty. -/
def errorMessageFrom (dflt : String) : ErrorPayload → String
  | .jsonBody d m => jsOr (optStr d) (jsOr (optStr m) dflt)
  | .textBody t => jsOr t dflt

/-- The error message `fetchCharacters` throws for a non-success response. -/
def fetchCharactersErrorMessage : ErrorPayload → String :=
  errorMessageFrom "Failed to load characters"

/-! ## frontend/src/App.jsx: search and filter predicate -/

/-- `sub` occurs at the head of `s` (character lists). -/
def leadsWith : List Char → List Char → Bool
  | [], _ => true
  | _ :: _, [] => false
  | a :: as, b :: bs => (a == b) && leadsWith as bs

/-- `sub` occurs somewhere in `s` (character lists). -/
def containsSub : List Char → List Char → Bool
  | [], sub => sub.isEmpty
  | c :: rest, sub => leadsWith sub (c :: rest) || containsSub rest sub

/-- JavaScript `s.includes(sub)` on strings. -/
def strIncludes (s sub : String) : Bool := containsSub s.toList sub.toList

/-- The fields of a character record that the frontend filter and resolve
code reads (frontend/src/App.jsx, frontend/src/helpers/api.js).  Fields that
JavaScript may leave `undefined` are `Option`s. -/
structure Character where
  name : String
  homeworld : Option String := none
  homeworld_name : Option String := none
  films : Option (List String) := none
  film_titles : Option (List String) := none
  species : Option (List String) := none
  species_names : Option (List String) := none
  starships : Option (List String) := none
  gender : Option String := none

/-- The dropdown filter state of App.jsx (`filters` useState initial value has
every filter unset). -/
structure Filters where
  homeworld : String := ""
  films : List String := []
  species : String := ""
  gender : String := ""

/-- `character.homeworld_name || character.homeworld` (App.jsx). -/
def homeworldVal (c : Character) : String :=
  jsOr (optStr c.homeworld_name) (optStr c.homeworld)

/-- `(c.film_titles && c.film_titles.length > 0 ? c.film_titles : c.films) || []`
(App.jsx). -/
def filmVals (c : Character) : List String :=
  match c.film_titles with
  | some l => if 0 < l.length then l else c.films.getD []
  | none => c.films.getD []

/-- The analogous fallback chain for species names (App.jsx). -/
def speciesVals (c : Character) : List String :=
  match c.species_names with
  | some l => if 0 < l.length then l else c.species.getD []
  | none => c.species.getD []

/-- The filter predicate of `filteredCharacters` (App.jsx): `term` is the
trimmed, lower-cased search string. -/
def matchesFilters (fl : Filters) (term : String) (c : Character) : Bool :=
  if term ≠ "" ∧ strIncludes (strLower c.name) term = false then false
  else if fl.homeworld ≠ "" ∧ homeworldVal c ≠ fl.homeworld then false
  else if fl.films ≠ [] ∧ fl.films.any (fun f => (filmVals c).contains f) = false then false
  else if fl.species ≠ "" ∧ (speciesVals c).contains fl.species = false then false
  else if fl.gender ≠ "" ∧ c.gender ≠ some fl.gender then false
  else true

/-- `filteredCharacters` (App.jsx): the memoised filtered view of the
character list. -/
def filteredCharacters (fl : Filters) (search : String)
    (chars : List Character) : List Character :=
  chars.filter (matchesFilters fl (strLower (strTrim search)))

/-! ## frontend/src/helpers/text.js and DetailOverlay.jsx -/

/-- A `/resolve` response as the detail overlay reads it: every category field
may be absent. -/
structure Details where
  homeworld : Option String := none
  films : Option (List String) := none
  species : Option (List String) := none
  starships : Option (List String) := none
  vehicles : Option (List String) := none

/-- `formatList` (frontend/src/helpers/text.js): `'None'` for a missing or
empty list, otherwise the entries joined with `", "`. -/
def formatList (arr : Option (List String)) : String :=
  match arr with
  | none => "None"
  | some l => if l.length = 0 then "None" else String.intercalate ", " l

/-- The Vehicles row of the detail overlay
(frontend/src/components/DetailOverlay.jsx): `formatList(details?.vehicles)`. -/
def vehiclesRow (details : Option Details) : String :=
  formatList (details.bind Details.vehicles)

/-- The JSON keys of the `/resolve` request body built by
`fetchCharacterDetails` (frontend/src/helpers/api.js). -/
def resolveBodyKeys : List String := ["homeworld", "films", "species", "starships"]

/-- A `/resolve` request body: one optional origin identifier plus three
category lists. -/
structure ResolveRequest where
  homeworld : Option String
  films : List String
  species : List String
  starships : List String

/-- The `/resolve` request body built by `fetchCharacterDetails`
(frontend/src/helpers/api.js): `homeworld` as-is, the three lists defaulted to
`[]` when absent. -/
def buildResolveBody (c : Character) : ResolveRequest :=
  { homeworld := c.homeworld
    films := c.films.getD []
    species := c.species.getD []
    starships := c.starships.getD [] }

/-! ## Backend models

The FastAPI backend (backend/app in the README) is not part of this source
tree; the definitions below are modelled from the design document. -/

/-- Modelled from the spec: a raw SWAPI person record as the Transformer sees
it (backend sources are missing from src/).  SWAPI sends every field as a
string and marks missing numerics with the string "unknown". -/
structure RawRecord where
  name : String
  height : String
  mass : String
  birth_year : String
  gender : String

/-- Modelled from the spec: the fixed cm→inch factor used for the derived
`height_in` field. -/
def cmToInFactor : ℚ := 393701 / 1000000

/-- Modelled from the spec: a backend `TransformedEntity` (§3) — the
simplified record the Transformer produces; `none` is the "unknown"
sentinel. -/
structure TransformedEntity where
  name : String
  height_cm : Option ℕ
  height_in : Option ℤ
  mass_kg : Option ℕ
  birth_year : String
  gender : String

/-- Modelled from the spec: the backend Transformer (§4.2, backend sources
missing from src/): keep the allow-listed fields; `height_in` is the numeric
`height` multiplied by the fixed factor and rounded to the nearest integer; a
non-numeric source value degrades to the sentinel. -/
def transform (r : RawRecord) : TransformedEntity :=
  { name := r.name
    height_cm := parseNat r.height
    height_in := (parseNat r.height).map (fun n => round ((n : ℚ) * cmToInFactor))
    mass_kg := parseNat r.mass
    birth_year := r.birth_year
    gender := r.gender }

/-! ### Orchestrator sort (§4.5) -/

/-- Modelled from the spec: lift a comparator on defined key values to whole
records; pairs involving an unknown key are never separated by the stable
sort below, which partitions them out first. -/
def keyLe {α κ : Type} (key : α → Option κ) (le : κ → κ → Bool) (a b : α) : Bool :=
  match key a, key b with
  | some x, some y => le x y
  | _, _ => true

/-- Modelled from the spec: the Orchestrator sort (§4.5, backend sources
missing from src/): stable sort of the records with a defined key by the
requested comparator (ascending or descending), with every record whose key
is the "unknown" sentinel placed after them. -/
def sortEntities {α κ : Type} (key : α → Option κ) (le : κ → κ → Bool)
    (xs : List α) : List α :=
  (xs.filter (fun x => (key x).isSome)).insertionSort
      (fun a b => keyLe key le a b = true)
    ++ xs.filter (fun x => (key x).isNone)

/-! ### Orchestrator cache behaviour (§4.5) -/

/-- Modelled from the spec: the Fetcher outcome (§4.1): all pages, or an
all-or-nothing failure. -/
inductive FetchOutcome (α : Type) where
  | ok (records : α)
  | unavailable
  | malformed

/-- Modelled from the spec: a `GET /characters` response — the sorted list, or
an error status with a `detail` message (§6). -/
inductive CharsResponse (α : Type) where
  | ok (body : List α)
  | err (status : ℕ) (detail : String)

/-- Modelled from the spec: the Orchestrator behind `GET /characters` (§4.5,
backend sources missing from src/).  The state is the cached transformed
list; resolver enrichment is omitted as irrelevant to the cache and sort
claims.  Cache-hit path when `refresh` is false and a cached list exists;
otherwise the refresh path, which on Fetcher failure leaves the cache
untouched and surfaces a 5xx. -/
def handleCharacters {κ : Type} (key : TransformedEntity → Option κ)
    (le : κ → κ → Bool) (cache : Option (List TransformedEntity))
    (refresh : Bool) (fetched : FetchOutcome (List RawRecord)) :
    CharsResponse TransformedEntity × Option (List TransformedEntity) :=
  match cache, refresh with
  | some cached, false => (.ok (sortEntities key le cached), some cached)
  | _, _ =>
    match fetched with
    | .ok raws =>
      let ents := raws.map transform
      (.ok (sortEntities key le ents), some ents)
    | .unavailable => (.err 503 "Failed to fetch data from SWAPI", cache)
    | .malformed => (.err 502 "Received an invalid payload from SWAPI", cache)

/-! ### Resolver (§4.4) -/

/-- Modelled from the spec: the Resolver's in-call state — the name memo
(seeded from the persistent ResolvedNameCache) plus the log of upstream
fetches issued during this invocation. -/
structure ResolveState where
  memo : List (String × String)
  log : List String

/-- Modelled from the spec: first-match lookup in a name table. -/
def lookupName (ident : String) : List (String × String) → Option String
  | [] => none
  | (k, v) :: rest => if k = ident then some v else lookupName ident rest

/-- Modelled from the spec: the outcome of one upstream fetch — the fetched
display name, or the "Unavailable" placeholder when the per-identifier fetch
fails or times out. -/
def fetchedName (fetch : String → Option String) (ident : String) : String :=
  match fetch ident with
  | some v => v
  | none => "Unavailable"

/-- Modelled from the spec: resolve one reference identifier (§4.4, backend
sources missing from src/): a memo hit returns the stored name; otherwise the
entity is fetched upstream (`fetch ident = none` models a failed or timed-out
fetch, degrading to "Unavailable"), the result is stored in the memo, and the
fetch is logged. -/
def resolveOne (fetch : String → Option String) (st : ResolveState)
    (ident : String) : String × ResolveState :=
  match lookupName ident st.memo with
  | some n => (n, st)
  | none =>
    (fetchedName fetch ident,
     ⟨st.memo ++ [(ident, fetchedName fetch ident)], st.log ++ [ident]⟩)

/-- Modelled from the spec: resolve a category list left to right, threading
the in-call state. -/
def resolveList (fetch : String → Option String) :
    ResolveState → List String → List String × ResolveState
  | st, [] => ([], st)
  | st, ident :: rest =>
    let p := resolveOne fetch st ident
    let q := resolveList fetch p.2 rest
    (p.1 :: q.1, q.2)

/-- Modelled from the spec: the display name a single identifier resolves to,
determined by the persistent cache and this invocation's upstream fetch
behaviour: the cached name if present, else the fetched name, else the
"Unavailable" placeholder. -/
def expectedName (fetch : String → Option String)
    (cache : List (String × String)) (ident : String) : String :=
  match lookupName ident cache with
  | some n => n
  | none => fetchedName fetch ident

/-- Modelled from the spec: a `POST /resolve` response mirrors the request's
category structure (§6). -/
structure ResolveResponse where
  homeworld : String
  films : List String
  species : List String
  starships : List String

/-- Modelled from the spec: resolving the optional origin identifier — an
absent origin resolves to "Unknown" without touching the state. -/
def originStep (fetch : String → Option String)
    (cache : List (String × String)) (req : ResolveRequest) :
    String × ResolveState :=
  match req.homeworld with
  | none => ("Unknown", ⟨cache, []⟩)
  | some ident => resolveOne fetch ⟨cache, []⟩ ident

/-- Modelled from the spec: `POST /resolve` (§4.4 and §6, backend sources
missing from src/): resolve the optional origin and then the three category
lists in order, threading the in-call memo; an absent origin resolves to
"Unknown". -/
def resolveRequest (fetch : String → Option String)
    (cache : List (String × String)) (req : ResolveRequest) :
    ResolveResponse × ResolveState :=
  let h := originStep fetch cache req
  let f := resolveList fetch h.2 req.films
  let s := resolveList fetch f.2 req.species
  let t := resolveList fetch s.2 req.starships
  (⟨h.1, f.1, s.1, t.1⟩, t.2)

/-- All reference identifiers of a `/resolve` request, origin first, in
request order. -/
def requestIds (req : ResolveRequest) : List String :=
  req.homeworld.toList ++ req.films ++ req.species ++ req.starships

/-- The response names aligned with `requestIds`: the origin name appears iff
the request carried an origin identifier. -/
def responseNames (req : ResolveRequest) (resp : ResolveResponse) : List String :=
  (req.homeworld.map (fun _ => resp.homeworld)).toList
    ++ resp.films ++ resp.species ++ resp.starships

/-- The in-call memo extends the persistent cache and every memo entry agrees
with `expectedName`. -/
def MemoOk (fetch : String → Option String) (cache : List (String × String))
    (st : ResolveState) : Prop :=
  (∃ ext, st.memo = cache ++ ext)
  ∧ ∀ ident n, lookupName ident st.memo = some n →
      expectedName fetch cache ident = n

/-- The fetch log has no duplicates and every logged identifier is memoised. -/
def LogOk (st : ResolveState) : Prop :=
  st.log.Nodup ∧ ∀ ident ∈ st.log, (lookupName ident st.memo).isSome = true

/-- Per-identifier failure isolation, stated for one aligned input/output
list pair of a resolve call where resolution fails exactly for `bad`. -/
def IsolatedOk (fetch : String → Option String)
    (cache : List (String × String)) (bad : String)
    (inp out : List String) : Prop :=
  out.length = inp.length
  ∧ (∀ i : ℕ, inp[i]? = some bad → out[i]? = some "Unavailable")
  ∧ (∀ i : ℕ, ∀ ident n, inp[i]? = some ident →
      lookupName ident cache = some n → out[i]? = some n)
  ∧ (∀ i : ℕ, ∀ ident n, inp[i]? = some ident →
      lookupName ident cache = none → fetch ident = some n →
      out[i]? = some n)

/-! ## Concrete data for instantiated examples -/

/-- Comparator on naturals used in concrete instances. -/
def natLe (a b : ℕ) : Bool := decide (a ≤ b)

/-- A concrete raw record with a numeric height. -/
def lukeRaw : RawRecord :=
  ⟨"Luke Skywalker", "172", "77", "19BBY", "male"⟩

/-- A concrete raw record whose height is the "unknown" sentinel. -/
def jabbaRaw : RawRecord :=
  ⟨"Jabba Desilijic Tiure", "unknown", "1358", "600BBY", "hermaphrodite"⟩

/-- A concrete transformed entity. -/
def lukeEntity : TransformedEntity :=
  ⟨"Luke Skywalker", some 172, some 68, some 77, "19BBY", "male"⟩

/-- A concrete character as the frontend sees it. -/
def lukeCharacter : Character :=
  { name := "Luke Skywalker"
    homeworld := some "p1"
    films := some ["f1", "f2"]
    species := some []
    starships := some ["s1"]
    gender := some "male" }

/-- A concrete `/resolve` request. -/
def sampleResolveReq : ResolveRequest :=
  ⟨some "p1", ["f1", "f1"], [], ["s1"]⟩

/-- A concrete upstream lookup for resolver instances: `"bad"` fails. -/
def sampleFetch (ident : String) : Option String :=
  if ident = "p1" then some "Tatooine"
  else if ident = "f1" then some "A New Hope"
  else if ident = "s1" then some "X-wing"
  else none

/-! ## Resolver lemmas -/

theorem lookupName_append (ident : String) (a b : List (String × String)) :
    lookupName ident (a ++ b) =
      match lookupName ident a with
      | some n => some n
      | none => lookupName ident b := by
  induction a with
  | nil => rfl
  | cons hd tl ih =>
    obtain ⟨k, v⟩ := hd
    by_cases h : k = ident <;> simp [lookupName, h, ih]

theorem lookupName_append_some {ident : String} {a : List (String × String)}
    {n : String} (b : List (String × String))
    (h : lookupName ident a = some n) :
    lookupName ident (a ++ b) = some n := by
  rw [lookupName_append, h]

theorem lookupName_append_none {ident : String} {a : List (String × String)}
    (b : List (String × String)) (h : lookupName ident a = none) :
    lookupName ident (a ++ b) = lookupName ident b := by
  rw [lookupName_append, h]

theorem resolveOne_hit {fetch : String → Option String} {st : ResolveState}
    {ident n : String} (h : lookupName ident st.memo = some n) :
    resolveOne fetch st ident = (n, st) := by
  simp [resolveOne, h]

theorem resolveOne_miss {fetch : String → Option String} {st : ResolveState}
    {ident : String} (h : lookupName ident st.memo = none) :
    resolveOne fetch st ident =
      (fetchedName fetch ident,
       ⟨st.memo ++ [(ident, fetchedName fetch ident)], st.log ++ [ident]⟩) := by
  simp [resolveOne, h]

theorem memo_none_cache_none {cache ext : List (String × String)}
    {st : ResolveState} {ident : String} (hext : st.memo = cache ++ ext)
    (h : lookupName ident st.memo = none) :
    lookupName ident cache = none := by
  rw [hext, lookupName_append] at h
  cases hca : lookupName ident cache with
  | none => rfl
  | some m => rw [hca] at h; exact absurd h (by simp)

theorem resolveOne_val {fetch : String → Option String}
    {cache : List (String × String)} {st : ResolveState}
    (hmk : MemoOk fetch cache st) (ident : String) :
    (resolveOne fetch st ident).1 = expectedName fetch cache ident := by
  cases h : lookupName ident st.memo with
  | some n => rw [resolveOne_hit h]; exact (hmk.2 ident n h).symm
  | none =>
    rw [resolveOne_miss h]
    obtain ⟨ext, hext⟩ := hmk.1
    have hc := memo_none_cache_none hext h
    simp [expectedName, hc]

theorem resolveOne_memoOk {fetch : String → Option String}
    {cache : List (String × String)} {st : ResolveState}
    (hmk : MemoOk fetch cache st) (ident : String) :
    MemoOk fetch cache (resolveOne fetch st ident).2 := by
  cases h : lookupName ident st.memo with
  | some n => rw [resolveOne_hit h]; exact hmk
  | none =>
    rw [resolveOne_miss h]
    obtain ⟨ext, hext⟩ := hmk.1
    have hc := memo_none_cache_none hext h
    refine ⟨⟨ext ++ [(ident, fetchedName fetch ident)], by simp [hext]⟩, ?_⟩
    intro j m hj
    simp only at hj
    rw [lookupName_append] at hj
    cases hmem : lookupName j st.memo with
    | some m2 =>
      rw [hmem] at hj
      cases hj
      exact hmk.2 j m hmem
    | none =>
      rw [hmem] at hj
      by_cases hji : ident = j
      · cases hji
        simp only [lookupName, if_pos rfl] at hj
        cases hj
        simp [expectedName, hc]
      · simp only [lookupName, if_neg hji] at hj
        exact absurd hj (by simp)

theorem resolveOne_logOk {fetch : String → Option String} {st : ResolveState}
    (hlg : LogOk st) (ident : String) :
    LogOk (resolveOne fetch st ident).2 := by
  cases h : lookupName ident st.memo with
  | some n => rw [resolveOne_hit h]; exact hlg
  | none =>
    rw [resolveOne_miss h]
    have hni : ident ∉ st.log := by
      intro hmem
      have h2 := hlg.2 ident hmem
      rw [h] at h2
      exact absurd h2 (by simp)
    refine ⟨?_, ?_⟩
    · simp only
      rw [List.nodup_append]
      exact ⟨hlg.1, List.nodup_singleton _, by simp [List.disjoint_singleton, hni]⟩
    · intro j hj
      simp only [List.mem_append, List.mem_singleton] at hj
      rcases hj with hj | hj
      · cases hmm : lookupName j st.memo with
        | none =>
          have h2 := hlg.2 j hj
          rw [hmm] at h2
          exact absurd h2 (by simp)
        | some m =>
          simp only
          rw [lookupName_append_some _ hmm]
          rfl
      · cases hj
        simp only
        rw [lookupName_append_none _ h]
        simp [lookupName]

theorem resolveList_spec (fetch : String → Option String)
    (cache : List (String × String)) :
    ∀ (ids : List String) (st : ResolveState), MemoOk fetch cache st →
      (resolveList fetch st ids).1 = ids.map (expectedName fetch cache)
      ∧ MemoOk fetch cache (resolveList fetch st ids).2
      ∧ (LogOk st → LogOk (resolveList fetch st ids).2) := by
  intro ids
  induction ids with
  | nil => exact fun st hmk => ⟨rfl, hmk, fun hlg => hlg⟩
  | cons ident rest ih =>
    intro st hmk
    have hval := resolveOne_val hmk ident
    have hmk2 := resolveOne_memoOk hmk ident
    obtain ⟨htl, hmk3, hlg3⟩ := ih (resolveOne fetch st ident).2 hmk2
    refine ⟨?_, hmk3, ?_⟩
    · simp only [resolveList, List.map_cons, hval, htl]
    · intro hlg
      exact hlg3 (resolveOne_logOk hlg ident)

theorem memoOk_init (fetch : String → Option String)
    (cache : List (String × String)) :
    MemoOk fetch cache ⟨cache, []⟩ := by
  refine ⟨⟨[], by simp⟩, ?_⟩
  intro ident n h
  simp only [expectedName]
  simp only at h
  rw [h]

theorem logOk_init (cache : List (String × String)) :
    LogOk ⟨cache, []⟩ := by
  refine ⟨List.nodup_nil, ?_⟩
  intro i h
  exact absurd h (by simp)

theorem originStep_spec (fetch : String → Option String)
    (cache : List (String × String)) (req : ResolveRequest) :
    (originStep fetch cache req).1 =
        (match req.homeworld with
          | none => "Unknown"
          | some ident => expectedName fetch cache ident)
    ∧ MemoOk fetch cache (originStep fetch cache req).2
    ∧ LogOk (originStep fetch cache req).2 := by
  cases hh : req.homeworld with
  | none =>
    have he : originStep fetch cache req = ("Unknown", ⟨cache, []⟩) := by
      simp [originStep, hh]
    rw [he]
    exact ⟨by simp [hh], memoOk_init fetch cache, logOk_init cache⟩
  | some ident =>
    have he : originStep fetch cache req = resolveOne fetch ⟨cache, []⟩ ident := by
      simp [originStep, hh]
    rw [he]
    refine ⟨?_, resolveOne_memoOk (memoOk_init fetch cache) ident,
      resolveOne_logOk (logOk_init cache) ident⟩
    rw [resolveOne_val (memoOk_init fetch cache) ident]

/-- The full characterisation of a `/resolve` call: every position resolves to
`expectedName` of its identifier, and the fetch log has no duplicates. -/
theorem resolveRequest_spec (fetch : String → Option String)
    (cache : List (String × String)) (req : ResolveRequest) :
    (resolveRequest fetch cache req).1.homeworld =
        (match req.homeworld with
          | none => "Unknown"
          | some ident => expectedName fetch cache ident)
    ∧ (resolveRequest fetch cache req).1.films =
        req.films.map (expectedName fetch cache)
    ∧ (resolveRequest fetch cache req).1.species =
        req.species.map (expectedName fetch cache)
    ∧ (resolveRequest fetch cache req).1.starships =
        req.starships.map (expectedName fetch cache)
    ∧ (resolveRequest fetch cache req).2.log.Nodup := by
  obtain ⟨ho1, hom, hol⟩ := originStep_spec fetch cache req
  obtain ⟨hf1, hfm, hfl⟩ :=
    resolveList_spec fetch cache req.films (originStep fetch cache req).2 hom
  obtain ⟨hs1, hsm, hsl⟩ := resolveList_spec fetch cache req.species _ hfm
  obtain ⟨ht1, htm, htl2⟩ := resolveList_spec fetch cache req.starships _ hsm
  exact ⟨ho1, hf1, hs1, ht1, (htl2 (hsl (hfl hol))).1⟩

/-! ## Sort lemmas -/

theorem append_index_cases {α : Type} (A B : List α) (n : ℕ)
    (hn : n < (A ++ B).length) :
    (n < A.length ∧ (A ++ B).get ⟨n, hn⟩ ∈ A)
    ∨ (A.length ≤ n ∧ (A ++ B).get ⟨n, hn⟩ ∈ B) := by
  by_cases h : n < A.length
  · left
    refine ⟨h, ?_⟩
    rw [List.get_eq_getElem, List.getElem_append_left h]
    exact List.getElem_mem h
  · right
    push_neg at h
    refine ⟨h, ?_⟩
    rw [List.get_eq_getElem, List.getElem_append_right h]
    exact List.getElem_mem _

theorem append_defined_before {α : Type} (p : α → Bool) (A B : List α)
    (hA : ∀ x ∈ A, p x = true) (hB : ∀ x ∈ B, p x = false) :
    ∀ (i j : ℕ) (hi : i < (A ++ B).length) (hj : j < (A ++ B).length),
      p ((A ++ B).get ⟨i, hi⟩) = false → p ((A ++ B).get ⟨j, hj⟩) = true →
      j < i := by
  intro i j hi hj hpi hpj
  rcases append_index_cases A B i hi with ⟨hiA, himem⟩ | ⟨hiA, _⟩
  · rw [hA _ himem] at hpi; cases hpi
  · rcases append_index_cases A B j hj with ⟨hjA, _⟩ | ⟨hjA, hjmem⟩
    · omega
    · rw [hB _ hjmem] at hpj; cases hpj

/-! ## Error-path and resolver helper lemmas -/

theorem handleCharacters_err_nonempty {κ : Type}
    (key : TransformedEntity → Option κ) (le : κ → κ → Bool)
    (cache : Option (List TransformedEntity)) (refresh : Bool)
    (fetched : FetchOutcome (List RawRecord)) (s : ℕ) (d : String)
    (st : Option (List TransformedEntity))
    (h : handleCharacters key le cache refresh fetched = (.err s d, st)) :
    d ≠ "" := by
  cases fetched <;> cases cache <;> cases refresh <;>
    simp [handleCharacters] at h <;>
    · obtain ⟨⟨h1, h2⟩, h3⟩ := h
      subst h2
      decide

theorem map_expectedName_point {fetch : String → Option String}
    {cache : List (String × String)} {l out : List String}
    (h : out = l.map (expectedName fetch cache)) :
    ∀ (i : ℕ) (ident : String), l[i]? = some ident →
      out[i]? = some (expectedName fetch cache ident) := by
  subst h
  intro i ident hi
  simp [List.getElem?_map, hi]

theorem isolatedOk_of_map {fetch : String → Option String}
    {cache : List (String × String)} {bad : String}
    (hc : lookupName bad cache = none) (hf : fetch bad = none)
    {l out : List String} (h : out = l.map (expectedName fetch cache)) :
    IsolatedOk fetch cache bad l out := by
  have hpoint := map_expectedName_point h
  refine ⟨by rw [h]; simp, ?_, ?_, ?_⟩
  · intro i hi
    have h2 := hpoint i bad hi
    rwa [show expectedName fetch cache bad = "Unavailable" from by
      simp [expectedName, hc, fetchedName, hf]] at h2
  · intro i ident n hi hcache
    have h2 := hpoint i ident hi
    rwa [show expectedName fetch cache ident = n from by
      simp [expectedName, hcache]] at h2
  · intro i ident n hi hcache hfn
    have h2 := hpoint i ident hi
    rwa [show expectedName fetch cache ident = n from by
      simp [expectedName, hcache, fetchedName, hfn]] at h2

/-! ## Claim theorems -/

/-- C1: the list-endpoint sort is stable by the requested key and, for every
key and both orders (any reflexive comparator, which covers ascending `≤` and
descending `≥`), every record whose key value is the "unknown" sentinel is
placed after all records with a defined value, and any two records with equal
defined key values keep their pre-sort relative order. -/
theorem sortEntities_unknown_last_and_stable {α κ : Type} (key : α → Option κ)
    (le : κ → κ → Bool) (hrefl : ∀ k, le k k = true) (xs : List α) :
    (∀ (i j : ℕ) (hi : i < (sortEntities key le xs).length)
        (hj : j < (sortEntities key le xs).length),
        (key ((sortEntities key le xs).get ⟨i, hi⟩)).isSome = false →
        (key ((sortEntities key le xs).get ⟨j, hj⟩)).isSome = true → j < i)
    ∧ (∀ a b : α, key a = key b → (key a).isSome = true →
        List.Sublist [a, b] xs →
        List.Sublist [a, b] (sortEntities key le xs)) := by
  constructor
  · have hA : ∀ x ∈ (xs.filter (fun x => (key x).isSome)).insertionSort
        (fun a b => keyLe key le a b = true), (key x).isSome = true := by
      intro x hx
      have hx2 : x ∈ xs.filter (fun x => (key x).isSome) :=
        (List.mem_insertionSort _).mp hx
      exact (List.mem_filter.mp hx2).2
    have hB : ∀ x ∈ xs.filter (fun x => (key x).isNone), (key x).isSome = false := by
      intro x hx
      have h1 := List.of_mem_filter hx
      cases hk : key x with
      | none => rfl
      | some v => rw [hk] at h1; cases h1
    exact append_defined_before (fun x => (key x).isSome) _ _ hA hB
  · intro a b hk hs hsub
    have hpb : (key b).isSome = true := hk ▸ hs
    have h1 : List.Sublist [a, b] (xs.filter (fun x => (key x).isSome)) := by
      have h2 := hsub.filter (fun x => (key x).isSome)
      simpa [List.filter_cons, hs, hpb] using h2
    have hr : keyLe key le a b = true := by
      cases hka : key a with
      | none => rw [hka] at hs; cases hs
      | some k =>
        have hkb : key b = some k := by rw [← hk, hka]
        simp [keyLe, hka, hkb, hrefl k]
    have h2 := List.pair_sublist_insertionSort
      (r := fun a b => keyLe key le a b = true) hr h1
    exact h2.trans (List.sublist_append_left _ _)

/-- Witness for C1: two equal-key records around an unknown-key record keep
their relative order through the sort. -/
theorem sortEntities_unknown_last_and_stable_witness :
    List.Sublist [((1 : ℕ), some (5 : ℕ)), (3, some 5)]
      (sortEntities Prod.snd natLe
        [((1 : ℕ), some (5 : ℕ)), (2, none), (3, some 5)]) := by
  have h := sortEntities_unknown_last_and_stable Prod.snd natLe
    (fun k => by simp [natLe]) [((1 : ℕ), some (5 : ℕ)), (2, none), (3, some 5)]
  exact h.2 (1, some 5) (3, some 5) rfl rfl (by decide)

/-- C2: the Transformer derives `height_in` from the numeric `height` by
multiplying with the fixed conversion factor and rounding to the nearest
integer, and passes the "unknown" sentinel through unchanged. -/
theorem transform_height_conversion (r : RawRecord) :
    (∀ n : ℕ, parseNat r.height = some n →
      (transform r).height_in = some (round ((n : ℚ) * cmToInFactor)))
    ∧ (parseNat r.height = none → (transform r).height_in = none) := by
  constructor
  · intro n h
    simp [transform, h]
  · intro h
    simp [transform, h]

/-- Witness for C2: a 172 cm height becomes 68 inches; an "unknown" height
stays unknown. -/
theorem transform_height_conversion_witness :
    parseNat lukeRaw.height = some 172
    ∧ (transform lukeRaw).height_in = some 68
    ∧ parseNat jabbaRaw.height = none
    ∧ (transform jabbaRaw).height_in = none := by
  refine ⟨by decide, ?_, by decide, (transform_height_conversion jabbaRaw).2 (by decide)⟩
  rw [(transform_height_conversion lukeRaw).1 172 (by decide)]
  rw [round_eq, cmToInFactor]
  norm_num

/-- C3: when a refresh request fails upstream, the cached transformed list is
unchanged, the failure surfaces as a 5xx with a detail message, and a
subsequent `refresh=false` request serves the cached list (sorted as
requested) with the cache still unchanged. -/
theorem failed_refresh_preserves_cache {κ : Type}
    (key : TransformedEntity → Option κ) (le : κ → κ → Bool)
    (cache : Option (List TransformedEntity))
    (fetched : FetchOutcome (List RawRecord))
    (hfail : ∀ raws, fetched ≠ .ok raws) :
    (handleCharacters key le cache true fetched).2 = cache
    ∧ (∃ s d, (handleCharacters key le cache true fetched).1 = .err s d
        ∧ 500 ≤ s ∧ s < 600)
    ∧ (∀ l f2, cache = some l →
        handleCharacters key le cache false f2
          = (.ok (sortEntities key le l), some l)) := by
  refine ⟨?_, ?_, ?_⟩
  · cases fetched with
    | ok raws => exact absurd rfl (hfail raws)
    | unavailable => cases cache <;> rfl
    | malformed => cases cache <;> rfl
  · cases fetched with
    | ok raws => exact absurd rfl (hfail raws)
    | unavailable =>
      refine ⟨503, "Failed to fetch data from SWAPI", ?_, by omega, by omega⟩
      cases cache <;> rfl
    | malformed =>
      refine ⟨502, "Received an invalid payload from SWAPI", ?_, by omega, by omega⟩
      cases cache <;> rfl
  · intro l f2 hc
    subst hc
    rfl

/-- Witness for C3: a failed refresh against a one-entry cache leaves it
intact and the following non-refresh request serves it. -/
theorem failed_refresh_preserves_cache_witness :
    (handleCharacters TransformedEntity.height_cm natLe (some [lukeEntity])
        true .unavailable).2 = some [lukeEntity]
    ∧ handleCharacters TransformedEntity.height_cm natLe (some [lukeEntity])
        false .unavailable
      = (.ok (sortEntities TransformedEntity.height_cm natLe [lukeEntity]),
         some [lukeEntity]) := by
  have h := failed_refresh_preserves_cache TransformedEntity.height_cm natLe
    (some [lukeEntity]) .unavailable (by intro raws hcon; exact absurd hcon (by simp))
  exact ⟨h.1, h.2.2 [lukeEntity] .unavailable rfl⟩

/-- C4 counterexample: the UI offers the sort option value "mass_kg", which is
not one of the keys the spec enumerates for `GET /characters`. -/
theorem sort_option_outside_spec_keys :
    ("mass_kg", "Mass") ∈ SORT_OPTIONS ∧ "mass_kg" ∉ specSortKeys := by
  exact ⟨by decide, by decide⟩

/-- C4 (amended): every sort option the UI offers uses one of the concrete
backend keys mass_kg, height_cm, name, birth_year (the implementation
counterparts of the spec's mass, height, name, birth_year), the order values
offered are exactly asc and desc, and `fetchCharacters` sends the chosen pair
as the `sort_by` and `order` query parameters. -/
theorem sort_options_sent_are_concrete_keys :
    (∀ p ∈ SORT_OPTIONS, p.1 ∈ ["mass_kg", "height_cm", "name", "birth_year"])
    ∧ (∀ o ∈ ORDER_OPTIONS, o = "asc" ∨ o = "desc")
    ∧ (∀ p ∈ SORT_OPTIONS, ∀ o ∈ ORDER_OPTIONS, ∀ refresh : Bool,
        ("sort_by", p.1) ∈ fetchCharactersParams p.1 o refresh
        ∧ ("order", o) ∈ fetchCharactersParams p.1 o refresh) := by
  refine ⟨by decide, by decide, ?_⟩
  intro p hp o ho refresh
  constructor <;> simp [fetchCharactersParams]

/-- Witness for the amended C4 at the concrete option "mass_kg". -/
theorem sort_options_sent_are_concrete_keys_witness :
    ("mass_kg", "Mass") ∈ SORT_OPTIONS
    ∧ ("mass_kg", "Mass").1 ∈ ["mass_kg", "height_cm", "name", "birth_year"]
    ∧ ("sort_by", ("mass_kg", "Mass").1)
        ∈ fetchCharactersParams ("mass_kg", "Mass").1 "asc" false := by
  refine ⟨by decide, ?_, ?_⟩
  · exact sort_options_sent_are_concrete_keys.1 ("mass_kg", "Mass") (by decide)
  · exact (sort_options_sent_are_concrete_keys.2.2 ("mass_kg", "Mass")
      (by decide) "asc" (by decide) false).1

/-- C7: a non-success characters response always carries a non-empty `detail`
message, and the client surfaces `detail` as the shown error message, falling
back to `message`, then the raw text, then the default string, only when
`detail` is absent. -/
theorem error_detail_surfaced {κ : Type} :
    (∀ (key : TransformedEntity → Option κ) (le : κ → κ → Bool)
        (cache : Option (List TransformedEntity)) (refresh : Bool)
        (fetched : FetchOutcome (List RawRecord)) (s : ℕ) (d : String)
        (st : Option (List TransformedEntity)),
        handleCharacters key le cache refresh fetched = (.err s d, st) → d ≠ "")
    ∧ (∀ d m, d ≠ "" → fetchCharactersErrorMessage (.jsonBody (some d) m) = d)
    ∧ (∀ m, m ≠ "" → fetchCharactersErrorMessage (.jsonBody none (some m)) = m)
    ∧ fetchCharactersErrorMessage (.jsonBody none none) = "Failed to load characters"
    ∧ (∀ t, t ≠ "" → fetchCharactersErrorMessage (.textBody t) = t)
    ∧ fetchCharactersErrorMessage (.textBody "") = "Failed to load characters" := by
  refine ⟨?_, ?_, ?_, rfl, ?_, rfl⟩
  · intro key le cache refresh fetched s d st h
    exact handleCharacters_err_nonempty key le cache refresh fetched s d st h
  · intro d m hd
    simp [fetchCharactersErrorMessage, errorMessageFrom, jsOr, optStr, hd]
  · intro m hm
    simp [fetchCharactersErrorMessage, errorMessageFrom, jsOr, optStr, hm]
  · intro t ht
    simp [fetchCharactersErrorMessage, errorMessageFrom, jsOr, ht]

/-- Witness for C7: the upstream-unavailable detail string is surfaced
verbatim by the client. -/
theorem error_detail_surfaced_witness :
    ("Failed to fetch data from SWAPI" : String) ≠ ""
    ∧ fetchCharactersErrorMessage
        (.jsonBody (some "Failed to fetch data from SWAPI") none)
      = "Failed to fetch data from SWAPI" := by
  refine ⟨by decide, ?_⟩
  exact (error_detail_surfaced (κ := ℕ)).2.1 "Failed to fetch data from SWAPI"
    none (by decide)

/-- C9: for every filter/search combination, `filteredCharacters` is a
subsequence of the character list, and it is the identity when the trimmed
search term is empty and every filter is unset. -/
theorem filteredCharacters_sublist_and_identity
    (fl : Filters) (search : String) (chars : List Character) :
    List.Sublist (filteredCharacters fl search chars) chars
    ∧ (strTrim search = "" → fl = ⟨"", [], "", ""⟩ →
        filteredCharacters fl search chars = chars) := by
  constructor
  · exact List.filter_sublist _
  · intro hterm hfl
    subst hfl
    unfold filteredCharacters
    rw [hterm]
    have hlower : strLower "" = "" := rfl
    rw [hlower]
    apply List.filter_eq_self.mpr
    intro c hc
    simp [matchesFilters]

/-- Witness for C9: the empty search and unset filters leave a concrete list
unchanged. -/
theorem filteredCharacters_sublist_and_identity_witness :
    strTrim "" = ""
    ∧ filteredCharacters ⟨"", [], "", ""⟩ "" [lukeCharacter] = [lukeCharacter] := by
  refine ⟨rfl, ?_⟩
  exact (filteredCharacters_sublist_and_identity ⟨"", [], "", ""⟩ ""
    [lukeCharacter]).2 rfl rfl

/-- C10: the `/resolve` request body built by `fetchCharacterDetails` has
exactly the keys homeworld, films, species, starships and no vehicles key,
while the overlay's Vehicles row is `formatList` of the response's absent (or
empty) vehicles field, hence "None" for every response that only echoes the
requested categories. -/
theorem resolve_body_omits_vehicles :
    resolveBodyKeys = ["homeworld", "films", "species", "starships"]
    ∧ "vehicles" ∉ resolveBodyKeys
    ∧ (∀ d : Details, d.vehicles = none → vehiclesRow (some d) = "None")
    ∧ (∀ d : Details, d.vehicles = some [] → vehiclesRow (some d) = "None")
    ∧ vehiclesRow none = "None" := by
  refine ⟨rfl, by decide, ?_, ?_, rfl⟩
  · intro d hd
    simp [vehiclesRow, formatList, hd]
  · intro d hd
    simp [vehiclesRow, formatList, hd]

/-- Witness for C10: a response that echoes only the four requested
categories renders "None" in the Vehicles row. -/
theorem resolve_body_omits_vehicles_witness :
    vehiclesRow (some ⟨some "Tatooine", some ["A New Hope"], some [],
      some ["X-wing"], none⟩) = "None" :=
  resolve_body_omits_vehicles.2.2.1 _ rfl

/-- C5: a `/resolve` response mirrors the request exactly: each category list
has the same length and order as its input (it is the pointwise resolution of
the input identifiers), and the origin is a single resolved name, or
"Unknown" when the request carries no origin identifier. -/
theorem resolve_response_mirrors_request (fetch : String → Option String)
    (cache : List (String × String)) (req : ResolveRequest) :
    ((resolveRequest fetch cache req).1.films.length = req.films.length
      ∧ (resolveRequest fetch cache req).1.species.length = req.species.length
      ∧ (resolveRequest fetch cache req).1.starships.length
          = req.starships.length)
    ∧ ((resolveRequest fetch cache req).1.films
          = req.films.map (expectedName fetch cache)
      ∧ (resolveRequest fetch cache req).1.species
          = req.species.map (expectedName fetch cache)
      ∧ (resolveRequest fetch cache req).1.starships
          = req.starships.map (expectedName fetch cache))
    ∧ (req.homeworld = none →
        (resolveRequest fetch cache req).1.homeworld = "Unknown")
    ∧ (∀ ident, req.homeworld = some ident →
        (resolveRequest fetch cache req).1.homeworld
          = expectedName fetch cache ident) := by
  obtain ⟨h1, h2, h3, h4, _⟩ := resolveRequest_spec fetch cache req
  refine ⟨⟨by rw [h2]; simp, by rw [h3]; simp, by rw [h4]; simp⟩,
    ⟨h2, h3, h4⟩, ?_, ?_⟩
  · intro hh
    rw [h1, hh]
  · intro ident hh
    rw [h1, hh]

/-- Witness for C5 on a concrete request, including the absent-origin case. -/
theorem resolve_response_mirrors_request_witness :
    (resolveRequest sampleFetch [] sampleResolveReq).1.films.length
        = sampleResolveReq.films.length
    ∧ (resolveRequest sampleFetch [] ⟨none, [], [], []⟩).1.homeworld
        = "Unknown" := by
  refine ⟨(resolve_response_mirrors_request sampleFetch [] sampleResolveReq).1.1, ?_⟩
  exact (resolve_response_mirrors_request sampleFetch []
    ⟨none, [], [], []⟩).2.2.1 rfl

/-- C6: within one `/resolve` invocation, at most one upstream fetch is issued
per identifier (the fetch log counts every identifier at most once), and
every occurrence of an identifier — across the origin and the three category
lists — resolves to the same display name. -/
theorem resolver_dedup_and_consistent (fetch : String → Option String)
    (cache : List (String × String)) (req : ResolveRequest) :
    (∀ ident, (resolveRequest fetch cache req).2.log.count ident ≤ 1)
    ∧ responseNames req (resolveRequest fetch cache req).1
        = (requestIds req).map (expectedName fetch cache)
    ∧ (∀ i j : ℕ, (requestIds req)[i]? = (requestIds req)[j]? →
        (responseNames req (resolveRequest fetch cache req).1)[i]?
          = (responseNames req (resolveRequest fetch cache req).1)[j]?) := by
  obtain ⟨h1, h2, h3, h4, h5⟩ := resolveRequest_spec fetch cache req
  have hmap : responseNames req (resolveRequest fetch cache req).1
      = (requestIds req).map (expectedName fetch cache) := by
    unfold responseNames requestIds
    cases hh : req.homeworld with
    | none => simp [hh, h1, h2, h3, h4]
    | some ident => simp [hh, h1, h2, h3, h4]
  refine ⟨?_, hmap, ?_⟩
  · intro ident
    exact List.nodup_iff_count_le_one.mp h5 ident
  · intro i j hij
    rw [hmap]
    simp only [List.getElem?_map]
    rw [hij]

/-- Witness for C6: the duplicated film identifier is fetched at most once and
both occurrences resolve identically. -/
theorem resolver_dedup_and_consistent_witness :
    (resolveRequest sampleFetch [] sampleResolveReq).2.log.count "f1" ≤ 1
    ∧ (responseNames sampleResolveReq
        (resolveRequest sampleFetch [] sampleResolveReq).1)[1]?
      = (responseNames sampleResolveReq
        (resolveRequest sampleFetch [] sampleResolveReq).1)[2]? := by
  refine ⟨(resolver_dedup_and_consistent sampleFetch [] sampleResolveReq).1 "f1", ?_⟩
  exact (resolver_dedup_and_consistent sampleFetch [] sampleResolveReq).2.2 1 2
    (by decide)

/-- C8: resolution failures are isolated per identifier: the identifier whose
fetch fails (and is uncached) resolves to "Unavailable", every other
identifier in the same call still resolves to its correct name, and all
category lists keep their input lengths. -/
theorem resolver_failure_isolated (fetch : String → Option String)
    (cache : List (String × String)) (req : ResolveRequest) (bad : String)
    (hc : lookupName bad cache = none) (hf : fetch bad = none) :
    IsolatedOk fetch cache bad req.films (resolveRequest fetch cache req).1.films
    ∧ IsolatedOk fetch cache bad req.species
        (resolveRequest fetch cache req).1.species
    ∧ IsolatedOk fetch cache bad req.starships
        (resolveRequest fetch cache req).1.starships
    ∧ (req.homeworld = some bad →
        (resolveRequest fetch cache req).1.homeworld = "Unavailable")
    ∧ (∀ ident n, req.homeworld = some ident →
        lookupName ident cache = none → fetch ident = some n →
        (resolveRequest fetch cache req).1.homeworld = n)
    ∧ (∀ ident n, req.homeworld = some ident →
        lookupName ident cache = some n →
        (resolveRequest fetch cache req).1.homeworld = n) := by
  obtain ⟨h1, h2, h3, h4, _⟩ := resolveRequest_spec fetch cache req
  refine ⟨isolatedOk_of_map hc hf h2, isolatedOk_of_map hc hf h3,
    isolatedOk_of_map hc hf h4, ?_, ?_, ?_⟩
  · intro hh
    rw [h1, hh]
    simp [expectedName, hc, fetchedName, hf]
  · intro ident n hh hcache hfn
    rw [h1, hh]
    simp [expectedName, hcache, fetchedName, hfn]
  · intro ident n hh hcache
    rw [h1, hh]
    simp [expectedName, hcache]

/-- Witness for C8: a failing origin identifier resolves to "Unavailable"
while a film identifier in the same call resolves to its correct name. -/
theorem resolver_failure_isolated_witness :
    lookupName "bad" [] = none
    ∧ sampleFetch "bad" = none
    ∧ (resolveRequest sampleFetch [] ⟨some "bad", ["f1"], [], []⟩).1.homeworld
        = "Unavailable"
    ∧ (resolveRequest sampleFetch [] ⟨some "bad", ["f1"], [], []⟩).1.films[0]?
        = some "A New Hope" := by
  have h := resolver_failure_isolated sampleFetch []
    ⟨some "bad", ["f1"], [], []⟩ "bad" rfl (by decide)
  refine ⟨rfl, by decide, h.2.2.2.1 rfl, ?_⟩
  exact h.1.2.2.2 0 "f1" "A New Hope" rfl rfl (by decide)

end StarWars
